import Mathlib

/-!
Shallow embedding of the adaptive content-fetching pipeline of the `news`
repository (Django app `news_updater/news_app`), covering:

* `is_content_suitable_for_llm`  (tasks.py lines 126-190)
* the RSS common-path fallback loop of `fetch_rss_feed` (tasks.py lines 715-742)
* the output-length caps of `_fetch_with_browser`, `fetch_with_jina` and
  `_format_feed` (browser_fetch.py 388-389, tasks.py 794-795, 641-645)
* the strategy cascade of `fetch_url_content` (tasks.py lines 804-1020)
* the browser resource lifecycle of `_fetch_with_browser` (browser_fetch.py)
* the per-section source limiting of `send_news_update` (tasks.py 229-247, 361-366)

Python strings are modelled as Lean `String` (whose `data` is the list of code
points, matching Python `len`/slicing semantics).  Python float comparisons
such as `frequency > 0.1` are modelled by the exact rational comparison
`total < 10 * count`.
-/

/-- Python `str.split()` whitespace test (ASCII whitespace, as in the
repository's inputs): space, tab, newline, carriage return, vertical tab,
form feed. -/
def pyIsSpace (c : Char) : Bool :=
  c = ' ' || c = '\t' || c = '\n' || c = '\r' || c = '\x0b' || c = '\x0c'

/-- Worker for `pySplitWs`: accumulates the current word (reversed) and splits
at whitespace runs, dropping empty pieces, exactly like Python `str.split()`
with no argument. -/
def pySplitWsAux : List Char → List Char → List (List Char)
  | [], acc => if acc.isEmpty then [] else [acc.reverse]
  | c :: cs, acc =>
    if pyIsSpace c then
      if acc.isEmpty then pySplitWsAux cs [] else acc.reverse :: pySplitWsAux cs []
    else pySplitWsAux cs (c :: acc)

/-- Python `str.split()` (no separator): split on whitespace runs, no empty
parts. -/
def pySplitWs (l : List Char) : List (List Char) := pySplitWsAux l []

/-- Worker for `pySplitOnChar`. -/
def pySplitOnCharAux (sep : Char) : List Char → List Char → List (List Char)
  | [], acc => [acc.reverse]
  | c :: cs, acc =>
    if c = sep then acc.reverse :: pySplitOnCharAux sep cs []
    else pySplitOnCharAux sep cs (c :: acc)

/-- Python `str.split(sep)` for a single-character separator: keeps empty
parts (used for `text.split('\n')`). -/
def pySplitOnChar (sep : Char) (l : List Char) : List (List Char) :=
  pySplitOnCharAux sep l []

/-- Python `str.lower()` (ASCII case folding suffices for the constants the
code compares against). -/
def pyLower (l : List Char) : List Char := l.map Char.toLower

/-- Whether `pat` occurs as a contiguous substring of `s`
(Python `pat in s`). -/
def containsSub (s pat : List Char) : Bool :=
  match s with
  | [] => pat.isEmpty
  | _ :: rest => pat.isPrefixOf s || containsSub rest pat

/-- Fuel-driven worker for `pySplitSub`; fuel is consumed once per character
scanned, so `l.length + 1` fuel always suffices. -/
def pySplitSubGo (sep : List Char) : Nat → List Char → List Char → List (List Char)
  | 0, _, acc => [acc.reverse]
  | _ + 1, [], acc => [acc.reverse]
  | fuel + 1, c :: cs, acc =>
    if sep.isPrefixOf (c :: cs) then
      acc.reverse :: pySplitSubGo sep fuel (List.drop (sep.length - 1) cs) []
    else pySplitSubGo sep fuel cs (c :: acc)

/-- Python `str.split(sep)` for a non-empty multi-character separator
(used for `url.split('//')`). -/
def pySplitSub (sep l : List Char) : List (List Char) :=
  pySplitSubGo sep (l.length + 1) l []

/-- Domain extraction `url.split('//')[1].split('/')[0]` from tasks.py line
832 (and line 942).  Returns `none` when the indexing `[1]` would raise
`IndexError` (no `'//'` in the URL). -/
def pyDomain (url : String) : Option String :=
  match pySplitSub "//".data url.data with
  | _ :: second :: _ => some (String.mk (second.takeWhile (fun c => c ≠ '/')))
  | _ => none

/-! ## Suitability Classifier (tasks.py `is_content_suitable_for_llm`, lines 126-190) -/

/-- The `problematic_indicators` list, tasks.py lines 144-151. -/
def problematic_indicators : List String :=
  ["<html", "<body", "<script", "<style",
   "captcha", "access denied", "403 forbidden", "404 not found",
   "page not available", "enable javascript", "browser not supported",
   "subscribe to continue", "subscription required", "sign in to continue"]

/-- The `common_words` stopword list, tasks.py line 178, as character lists
(the classifier compares them against lowered words). -/
def common_words : List (List Char) :=
  ["the", "a", "an", "and", "or", "but", "in", "on", "at", "to",
   "of", "for", "with", "by"].map String.data

/-- Number of problematic indicators occurring in `text.lower()`
(tasks.py lines 153-158). -/
def indicator_count (text : String) : Nat :=
  (problematic_indicators.filter
    (fun ind => containsSub (pyLower text.data) ind.data)).length

/-- Number of paragraphs (lines of `text.split('\n')` that are non-blank
after stripping) with more than 10 whitespace-separated words
(tasks.py lines 166-167). -/
def meaningful_paragraph_count (text : String) : Nat :=
  ((((pySplitOnChar '\n' text.data).filter
      (fun p => p.any (fun c => !(pyIsSpace c)))).filter
      (fun p => 10 < (pySplitWs p).length))).length

/-- The word list `text.lower().split()` (tasks.py line 174). -/
def pyWords (text : String) : List (List Char) := pySplitWs (pyLower text.data)

/-- The list comprehension `[w for w in words if w not in common_words and
len(w) > 3]` (tasks.py line 179). -/
def filtered_words (ws : List (List Char)) : List (List Char) :=
  ws.filter (fun w => decide (w ∉ common_words ∧ 3 < w.length))

/-- `Counter(ws).most_common n`: the distinct elements of `ws` sorted by
descending count (stably), truncated to `n`, paired with their counts
(tasks.py line 180).  Tie order among equal counts differs from CPython
insertion order, which does not affect the membership facts proved below. -/
def most_common (ws : List (List Char)) (n : Nat) : List (List Char × Nat) :=
  (((ws.dedup).mergeSort (fun a b => decide (ws.count b ≤ ws.count a))).take n).map
    (fun w => (w, ws.count w))

/-- The repetition-anomaly check of tasks.py lines 173-187: for texts of more
than 100 words, reject when one of the 20 most common filtered words has
count over 100 and frequency above 10 percent of all words.  The Python
float test `count / len(words) > 0.1` is modelled exactly rationally as
`len(words) < 10 * count`. -/
def repetitionReject (text : String) : Bool :=
  let words := pyWords text
  decide (100 < words.length) &&
    ((most_common (filtered_words words) 20).any
      (fun p => decide (words.length < 10 * p.2 ∧ 100 < p.2)))

/-- `is_content_suitable_for_llm(text, url)` (tasks.py lines 126-190); the
`url` argument is used only for logging and is omitted.  The early
`return False` points become the successive `if` branches; `not text` is
subsumed by `len(text) < 200`. -/
def is_content_suitable_for_llm (text : String) : Bool :=
  if text.length < 200 then false
  else if 5 ≤ indicator_count text then false
  else if meaningful_paragraph_count text < 3 then false
  else if repetitionReject text then false
  else true

/-- Tags for the four rejection rules of the classifier, in source order. -/
inductive RejectReason
  | tooShort
  | tooManyIndicators
  | tooFewParagraphs
  | repetitious
deriving DecidableEq

/-- Modelled from the spec: the complete list of failing rules for a text, in
rule order — what section 4.2 of the spec says the Suitability Classifier
returns (`SuitabilityVerdict.reasons`, all failing reasons).  The code has no
such value; this definition exists to compare the spec against the code. -/
def failing_rules (text : String) : List RejectReason :=
  (if text.length < 200 then [RejectReason.tooShort] else []) ++
  (if 5 ≤ indicator_count text then [RejectReason.tooManyIndicators] else []) ++
  (if meaningful_paragraph_count text < 3 then [RejectReason.tooFewParagraphs] else []) ++
  (if repetitionReject text then [RejectReason.repetitious] else [])

/-- The classifier with its observable diagnostics: the boolean it returns,
paired with the rule named by the single `logger.warning` it emits before an
early `return False` (tasks.py lines 139, 162, 170, 186).  The code reports
at most the first failing rule. -/
def is_content_suitable_verdict (text : String) : Bool × List RejectReason :=
  if text.length < 200 then (false, [RejectReason.tooShort])
  else if 5 ≤ indicator_count text then (false, [RejectReason.tooManyIndicators])
  else if meaningful_paragraph_count text < 3 then (false, [RejectReason.tooFewParagraphs])
  else if repetitionReject text then (false, [RejectReason.repetitious])
  else (true, [])

/-! ## Output-length caps (browser_fetch.py 181, 240, 388-389; tasks.py 794-795, 644) -/

/-- Python `text[:cap] + "..." if len(text) > cap else text` (slicing by code
points, as `String.data` does). -/
def pyCapText (cap : Nat) (text : String) : String :=
  if cap < text.length then String.mk (text.data.take cap ++ "...".data) else text

/-- The browser strategy's output cap, browser_fetch.py lines 388-389 (also
181 and 240): 15000 characters plus an appended ellipsis marker. -/
def browser_text_cap (text : String) : String := pyCapText 15000 text

/-- The Jina reader strategy's output cap, tasks.py lines 794-795. -/
def jina_text_cap (text : String) : String := pyCapText 60000 text

/-- The feed formatter's output cap, tasks.py line 644 (applied after the
`len(text) > 500` acceptance gate). -/
def feed_text_cap (text : String) : String := pyCapText 60000 text

/-! ## Feed discovery: the common-path fallback loop (tasks.py 715-742) -/

/-- Combined outcome of `_try_parse_feed` followed by `_format_feed` for one
candidate feed URL (tasks.py 600-645): the fetch/parse failed or had no
entries (`noParse`), or it parsed but the formatted text was not accepted
(at most 500 characters, `parsedShort`), or it produced usable text
(`parsedGood`). -/
inductive FeedOutcome
  | noParse
  | parsedShort
  | parsedGood (text : String)
deriving DecidableEq

/-- `RSS_FEED_PATHS`, tasks.py line 597. -/
def RSS_FEED_PATHS : List String :=
  ["/feed", "/rss", "/rss/all", "/feeds/all.atom.xml",
   "/feed.xml", "/rss.xml", "/atom.xml", "/index.xml"]

/-- The Strategy-2 loop of `fetch_rss_feed` (tasks.py lines 715-738) over an
abstract network environment `env`: for each candidate path it skips URLs
already tried via link tags and comment feeds, otherwise attempts the feed;
a parse failure increments the consecutive-miss counter (abort at 3), a
successful parse resets it.  Returns the result and the list of feed URLs
actually attempted, in order. -/
def common_paths_loop (env : String → FeedOutcome) (links : List String) (base : String) :
    List String → Nat → Option String × List String
  | [], _ => (none, [])
  | p :: rest, misses =>
    let feedUrl := base ++ p
    if feedUrl ∈ links then common_paths_loop env links base rest misses
    else if containsSub feedUrl.data "/comments".data then
      common_paths_loop env links base rest misses
    else
      match env feedUrl with
      | FeedOutcome.parsedGood t => (some t, [feedUrl])
      | FeedOutcome.parsedShort =>
        let r := common_paths_loop env links base rest 0
        (r.1, feedUrl :: r.2)
      | FeedOutcome.noParse =>
        if 3 ≤ misses + 1 then (none, [feedUrl])
        else
          let r := common_paths_loop env links base rest (misses + 1)
          (r.1, feedUrl :: r.2)

/-- The Strategy-2 fallback as invoked from `fetch_rss_feed`
(tasks.py line 716: counter starts at 0, candidates are `RSS_FEED_PATHS`). -/
def try_common_paths (env : String → FeedOutcome) (links : List String) (base : String) :
    Option String × List String :=
  common_paths_loop env links base RSS_FEED_PATHS 0

/-- The candidate feed URLs the loop would attempt if nothing stopped it:
every path appended to the base, minus link-tag duplicates and comment
feeds. -/
def eligible_urls (links : List String) (base : String) (paths : List String) : List String :=
  (paths.map (fun p => base ++ p)).filter
    (fun u => decide (u ∉ links) && !(containsSub u.data "/comments".data))

/-- The consecutive-miss counter after processing a list of attempted feed
URLs starting from `n`: a parse failure adds one, anything else resets to
zero — the quantity `consecutive_misses` tracks in tasks.py lines 716-735. -/
def missStreakAfter (env : String → FeedOutcome) : Nat → List String → Nat
  | n, [] => n
  | n, u :: us =>
    missStreakAfter env (if env u = FeedOutcome.noParse then n + 1 else 0) us

/-! ## Fetch Orchestrator (tasks.py `fetch_url_content`, lines 804-1020) -/

/-- Strategy invocations that `fetch_url_content` can perform, recorded in
order: the RSS feed attempt, the Jina reader attempt, one direct-HTTP request
(`session.get` of the target URL), and one `_fetch_with_browser` call. -/
inductive Step
  | feed
  | jina
  | http
  | browser
deriving DecidableEq

/-- Outcome of the `fetch_rss_feed(url)` call inside `fetch_url_content`
(tasks.py 817-829): it raised (caught there), found nothing, or returned
formatted feed text. -/
inductive RssOutcome
  | raise
  | noFeed
  | found (s : String)

/-- Outcome of one `_fetch_with_browser` call: the function raised, or
returned extracted text. -/
inductive BrowserOutcome
  | raise
  | ok (s : String)
deriving DecidableEq

/-- Outcome of the `session.get(url, ...)` request of one retry-loop attempt
(tasks.py line 956): a body, an `HTTPError` status, a connection error, a
timeout, or some other exception (which includes `process_html_content`
failures, all caught by the generic handler at line 1013). -/
inductive HttpOutcome
  | ok (body : String)
  | httpErr (code : Nat)
  | connErr
  | timeout
  | exc

/-- Network/extraction environment for one `fetch_url_content` call.  The
`browser` outcome is shared by every `_fetch_with_browser` call in the run
(the code calls it with the same arguments each time).  `processed` stands
for `process_html_content`.  Modelled from the spec: `process_html_content`
is imported from `.browser_fetch` (tasks.py line 16) but missing from the
sources; per spec section 4.1 it is a pure HTML-to-text extraction, so it is
abstracted as an environment function — its value never influences which
strategies run. -/
structure OrchEnv where
  rss : RssOutcome
  jina : Option String
  browser : BrowserOutcome
  http : Nat → HttpOutcome
  processed : String → String

/-- `JINA_BLOCKLIST`, tasks.py lines 747-753. -/
def JINA_BLOCKLIST : List String :=
  ["mercurynews.com", "theverge.com", "wired.com", "techcrunch.com", "apnews.com"]

/-- `problematic_sites`, tasks.py line 857. -/
def problematic_sites : List String :=
  ["mv-voice.com", "paloaltoonline.com", "almanacnews.com", "axios.com", "wsj.com"]

/-- `any(blocked in domain for blocked in JINA_BLOCKLIST)`, tasks.py 833. -/
def jinaBlocked (domain : String) : Bool :=
  JINA_BLOCKLIST.any (fun b => containsSub domain.data b.data)

/-- `any(site in domain for site in problematic_sites)`, tasks.py 859. -/
def isProblematicSite (domain : String) : Bool :=
  problematic_sites.any (fun s => containsSub domain.data s.data)

/-- The RSS phase outcome used at tasks.py 818-825: feed text is returned
only when present, longer than 500 characters and suitable. -/
def rss_usable (env : OrchEnv) : Option String :=
  match env.rss with
  | RssOutcome.found s =>
    if 500 < s.length && is_content_suitable_for_llm s then some s else none
  | _ => none

/-- The Jina phase outcome used at tasks.py 841-850 (given that the phase
runs at all): content counts only when present, longer than 500 characters
and suitable.  `fetch_with_jina` itself never raises (tasks.py 766-802). -/
def jina_usable (env : OrchEnv) : Option String :=
  match env.jina with
  | some s =>
    if 500 < s.length && is_content_suitable_for_llm s then some s else none
  | none => none

/-- The requests retry loop of tasks.py lines 931-1020 with `max_retries = 2`.
`rem` is the number of attempts left (`rem = 0` is falling off the loop end,
Python implicit `None`); `attempt` indexes `env.http`.  Inside the `try`
block a short body (< 100 chars) or an anti-bot marker triggers an immediate
`_fetch_with_browser` whose exception is caught by the generic handler
(lines 962-976, 1013-1020); a 403/429 `HTTPError` triggers a browser call in
the handler whose exception propagates (lines 984-988), as do the
last-attempt browser fallbacks (996, 1004, 1012, 1020). -/
def httpLoop (env : OrchEnv) : Nat → Nat → Except Unit (Option String) × List Step
  | 0, _ => (Except.ok none, [])
  | rem + 1, attempt =>
    match env.http attempt with
    | HttpOutcome.ok body =>
      if body.length < 100 then
        match env.browser with
        | BrowserOutcome.ok s => (Except.ok (some s), [Step.http, Step.browser])
        | BrowserOutcome.raise =>
          if rem = 0 then (Except.error (), [Step.http, Step.browser, Step.browser])
          else
            let r := httpLoop env rem (attempt + 1)
            (r.1, Step.http :: Step.browser :: r.2)
      else if containsSub (pyLower body.data) "captcha".data ||
          containsSub (pyLower body.data) "cloudflare".data then
        match env.browser with
        | BrowserOutcome.ok s => (Except.ok (some s), [Step.http, Step.browser])
        | BrowserOutcome.raise =>
          if rem = 0 then (Except.error (), [Step.http, Step.browser, Step.browser])
          else
            let r := httpLoop env rem (attempt + 1)
            (r.1, Step.http :: Step.browser :: r.2)
      else (Except.ok (some (env.processed body)), [Step.http])
    | HttpOutcome.httpErr code =>
      if code = 403 || code = 429 then
        match env.browser with
        | BrowserOutcome.ok s => (Except.ok (some s), [Step.http, Step.browser])
        | BrowserOutcome.raise => (Except.error (), [Step.http, Step.browser])
      else if rem = 0 then
        match env.browser with
        | BrowserOutcome.ok s => (Except.ok (some s), [Step.http, Step.browser])
        | BrowserOutcome.raise => (Except.error (), [Step.http, Step.browser])
      else
        let r := httpLoop env rem (attempt + 1)
        (r.1, Step.http :: r.2)
    | _ =>
      if rem = 0 then
        match env.browser with
        | BrowserOutcome.ok s => (Except.ok (some s), [Step.http, Step.browser])
        | BrowserOutcome.raise => (Except.error (), [Step.http, Step.browser])
      else
        let r := httpLoop env rem (attempt + 1)
        (r.1, Step.http :: r.2)

/-- `fetch_url_content(url, use_browser, use_jina, browser_session)`
(tasks.py lines 804-1020) over the abstract environment, returning the
result — `Except.error ()` models an uncaught exception — and the ordered
strategy trace.  Phases in source order: RSS (816-829, exceptions caught),
domain parsing (832, `IndexError` uncaught when the URL has no `'//'`),
Jina when enabled and not blocklisted (838-854, exceptions caught), the
problematic-site direct browser call (856-864, exceptions uncaught), the
forced-browser attempt for `use_browser=True` (877-883, exceptions caught,
falls through), then the requests retry loop. -/
def fetch_url_content (url : String) (use_browser : Option Bool) (use_jina : Bool)
    (env : OrchEnv) : Except Unit (Option String) × List Step :=
  match rss_usable env with
  | some s => (Except.ok (some s), [Step.feed])
  | none =>
    match pyDomain url with
    | none => (Except.error (), [Step.feed])
    | some domain =>
      let jinaTried := use_jina && !(jinaBlocked domain)
      let pre : List Step := Step.feed :: (if jinaTried then [Step.jina] else [])
      match (if jinaTried then jina_usable env else none) with
      | some s => (Except.ok (some s), pre)
      | none =>
        if isProblematicSite domain then
          match env.browser with
          | BrowserOutcome.ok s => (Except.ok (some s), pre ++ [Step.browser])
          | BrowserOutcome.raise => (Except.error (), pre ++ [Step.browser])
        else
          match use_browser with
          | some true =>
            match env.browser with
            | BrowserOutcome.ok s => (Except.ok (some s), pre ++ [Step.browser])
            | BrowserOutcome.raise =>
              let r := httpLoop env 2 0
              (r.1, pre ++ Step.browser :: r.2)
          | _ =>
            let r := httpLoop env 2 0
            (r.1, pre ++ r.2)

/-! ## Browser resource lifecycle (`_fetch_with_browser`, browser_fetch.py) -/

/-- Outcome of the Playwright branch, browser_fetch.py lines 145-185: the
library is not importable, or it launched, navigated and extracted `text`
(closing its browser before returning), or it raised mid-use (the
`with sync_playwright()` context closes what it launched, and the handler at
line 184 swallows the exception). -/
inductive PwOutcome
  | notInstalled
  | navOk (text : String)
  | navRaise
deriving DecidableEq

/-- Outcome of Selenium driver construction, browser_fetch.py lines 187-209:
a driver owning chrome process `pid`, or failure (caught at line 210). -/
inductive SelInitOutcome
  | initOk (pid : Nat)
  | initFail
deriving DecidableEq

/-- Outcome of the navigation/extraction phase once the driver exists,
browser_fetch.py lines 245-389: extracted text, or an exception (there is no
`except` between the `try` at line 91 and the `finally` at line 391, so it
propagates after cleanup). -/
inductive NavOutcome
  | navOk (extracted : String)
  | navRaise
deriving DecidableEq

/-- Outcome of `driver.quit()` in the `finally` block, lines 429-437: clean
quit, or a failure/timeout that triggers the global process-kill fallback
(lines 398-427 and 439-454). -/
inductive QuitOutcome
  | quitOk
  | quitFailOrTimeout
deriving DecidableEq

/-- Environment for one `_fetch_with_browser` call.  Chrome/chromium OS
processes are identified by pids; `preexistingChrome` are those running when
the call starts, `foreignDuringFetch` are ones other tasks start after the
startup cleanup (none of them launched by this call).  Extraction of text
from the rendered DOM (the selector cascade, lines 326-386) is abstracted
into the text carried by the navigation outcomes: it does not interact with
resource handling. -/
structure BrowserEnv where
  seleniumInstalled : Bool
  preexistingChrome : List Nat
  pw : PwOutcome
  selenium : SelInitOutcome
  nav : NavOutcome
  quit : QuitOutcome
  requestsFallback : Option String
  foreignDuringFetch : List Nat

/-- Observable resource behaviour of one `_fetch_with_browser` call:
its result (`Except.error ()` models a propagated exception), the processes
killed by the startup cleanup (lines 39-64), whether a Selenium driver was
acquired, whether the `finally` block's driver-cleanup branch ran, which
processes that cleanup closed or killed, and which chrome processes are
still alive when the call returns or raises. -/
structure BrowserRun where
  result : Except Unit String
  killedAtStartup : List Nat
  driverAcquired : Bool
  teardownRan : Bool
  killedInTeardown : List Nat
  lingeringChrome : List Nat

/-- `_fetch_with_browser(url)` (browser_fetch.py lines 8-456) as a resource
model.  Control flow, in source order: selenium import (raises ImportError
at line 22 if absent), startup kill of every chrome/chromium process (39-64),
the Playwright attempt (145-185), the Selenium attempt (187-209) with the
requests fallback on construction failure (213-243, raising at 243 when that
also fails), navigation and extraction (245-389), and the `finally` teardown
(391-454): `driver.quit()` closes exactly the driver's own process, but on
quit failure or timeout the fallback kills every chrome/chromium process on
the host. -/
def fetch_with_browser_run (env : BrowserEnv) : BrowserRun :=
  if !env.seleniumInstalled then
    { result := Except.error (), killedAtStartup := [], driverAcquired := false,
      teardownRan := false, killedInTeardown := [],
      lingeringChrome := env.preexistingChrome ++ env.foreignDuringFetch }
  else
    match env.pw with
    | PwOutcome.navOk t =>
      { result := Except.ok (browser_text_cap t), killedAtStartup := env.preexistingChrome,
        driverAcquired := false, teardownRan := false, killedInTeardown := [],
        lingeringChrome := env.foreignDuringFetch }
    | _ =>
      match env.selenium with
      | SelInitOutcome.initFail =>
        match env.requestsFallback with
        | some t =>
          { result := Except.ok (browser_text_cap t), killedAtStartup := env.preexistingChrome,
            driverAcquired := false, teardownRan := false, killedInTeardown := [],
            lingeringChrome := env.foreignDuringFetch }
        | none =>
          { result := Except.error (), killedAtStartup := env.preexistingChrome,
            driverAcquired := false, teardownRan := false, killedInTeardown := [],
            lingeringChrome := env.foreignDuringFetch }
      | SelInitOutcome.initOk pid =>
        let navResult : Except Unit String :=
          match env.nav with
          | NavOutcome.navOk extracted => Except.ok (browser_text_cap extracted)
          | NavOutcome.navRaise => Except.error ()
        match env.quit with
        | QuitOutcome.quitOk =>
          { result := navResult, killedAtStartup := env.preexistingChrome,
            driverAcquired := true, teardownRan := true, killedInTeardown := [pid],
            lingeringChrome := env.foreignDuringFetch }
        | QuitOutcome.quitFailOrTimeout =>
          { result := navResult, killedAtStartup := env.preexistingChrome,
            driverAcquired := true, teardownRan := true,
            killedInTeardown := pid :: env.foreignDuringFetch,
            lingeringChrome := [] }

/-! ## Module-level signature facts for the browser strategy -/

/-- The parameter list of `_fetch_with_browser` as defined at
browser_fetch.py line 8: `def _fetch_with_browser(url):`. -/
def fetch_with_browser_params : List String := ["url"]

/-- The top-level names module `news_app.browser_fetch` defines. -/
def browser_fetch_module_names : List String := ["logger", "_fetch_with_browser"]

/-- The names tasks.py line 16 imports from `.browser_fetch`. -/
def tasks_imports_from_browser_fetch : List String :=
  ["_fetch_with_browser", "BrowserSession", "process_html_content"]

/-- The keyword arguments tasks.py passes to `_fetch_with_browser` at its
call sites (lines 861, 879, 966, 976, 988, 996, 1004, 1012, 1020). -/
def tasks_browser_call_kwargs : List String := ["browser_session"]

/-! ## Per-section source limiting (`send_news_update`, tasks.py 229-247, 361-366) -/

/-- The part of a section's result relevant to source fetching: which URLs
were fetched (in order), the per-source content strings collected, and the
`sources_limit_warning` flag stored in `section_result` (tasks.py 365). -/
structure SectionFetchResult where
  fetchedUrls : List String
  sourcesContent : List String
  sources_limit_warning : Bool

/-- The source-processing loop of `send_news_update` for one section
(tasks.py lines 229-247): truncate the declared source list to 7 when longer
(setting the warning flag), then fetch each remaining URL in order, turning
a raised exception into an error note (lines 245-247). -/
def process_section_sources (fetchOutcome : String → Except Unit (Option String))
    (source_urls : List String) : SectionFetchResult :=
  let limited := if 7 < source_urls.length then source_urls.take 7 else source_urls
  { fetchedUrls := limited
  , sourcesContent := limited.map (fun url =>
      match fetchOutcome url with
      | Except.ok _ => "Content from " ++ url
      | Except.error _ => "Error fetching content from " ++ url)
  , sources_limit_warning := decide (7 < source_urls.length) }

/-! ## Concrete inputs and environments used in the theorems below -/

/-- A 72-character article-like line of twelve words, each over 3 letters. -/
def goodLine : String :=
  "alpha bravo charlie delta echo foxtrot golf hotel india juliet kilo lima"

/-- A 583-character, 96-word, 8-line text that passes every classifier rule:
long enough, no problem indicators, eight meaningful paragraphs, and too few
words to enter the repetition check. -/
def goodBig : String := String.intercalate "\n" (List.replicate 8 goodLine)

/-- A 205-character single-line text containing exactly five problem
indicators and no paragraph of more than 10 words: it fails both the
indicator rule and the paragraph rule. -/
def T0 : String := "<html <body <script <style captcha " ++ String.mk (List.replicate 170 'x')

/-- A 15001-character text, one character over the browser cap. -/
def longA : String := String.mk (List.replicate 15001 'a')

/-- Joins words with single spaces (the shape of the classifier inputs used
for the repetition-rule witness). -/
def joinSp : List (List Char) → List Char
  | [] => []
  | [w] => w
  | w :: v :: ws => w ++ ' ' :: joinSp (v :: ws)

/-- 6000 words: 5000 occurrences of `subscribe` and 1000 of `aaaa`. -/
def bigWords : List (List Char) :=
  List.replicate 5000 "subscribe".data ++ List.replicate 1000 "aaaa".data

/-- The 5000-out-of-6000 repeated-word text from the spec's scenario 4. -/
def bigText : String := String.mk (joinSp bigWords)

/-- Environment whose RSS phase yields suitable feed text while the browser
strategy would fail; HTTP always hits connection errors. -/
def envRssGood : OrchEnv :=
  { rss := RssOutcome.found goodBig, jina := none, browser := BrowserOutcome.raise,
    http := fun _ => HttpOutcome.connErr, processed := id }

/-- Environment with no feed, no Jina content, a raising browser strategy and
failing HTTP. -/
def envBrowserRaise : OrchEnv :=
  { rss := RssOutcome.noFeed, jina := none, browser := BrowserOutcome.raise,
    http := fun _ => HttpOutcome.connErr, processed := id }

/-- Environment with no feed, no Jina content, a succeeding browser strategy
and failing HTTP. -/
def envBrowserOk : OrchEnv :=
  { rss := RssOutcome.noFeed, jina := none, browser := BrowserOutcome.ok "rendered page text",
    http := fun _ => HttpOutcome.connErr, processed := id }

/-- Environment with no feed, no Jina content, a succeeding browser strategy,
and HTTP requests that are rejected with status 403. -/
def envHttp403 : OrchEnv :=
  { rss := RssOutcome.noFeed, jina := none, browser := BrowserOutcome.ok "rendered page text",
    http := fun _ => HttpOutcome.httpErr 403, processed := id }

/-- Browser environment: Playwright absent, Selenium driver acquired as
process 7, navigation raises, `driver.quit()` fails, and one unrelated
chrome process 99 (started by another task) is running. -/
def env4bad : BrowserEnv :=
  { seleniumInstalled := true, preexistingChrome := [], pw := PwOutcome.notInstalled,
    selenium := SelInitOutcome.initOk 7, nav := NavOutcome.navRaise,
    quit := QuitOutcome.quitFailOrTimeout, requestsFallback := none,
    foreignDuringFetch := [99] }

/-- Browser environment: Playwright absent, Selenium driver acquired as
process 7, navigation raises, `driver.quit()` succeeds, unrelated chrome
process 99 running. -/
def env4ok : BrowserEnv :=
  { seleniumInstalled := true, preexistingChrome := [], pw := PwOutcome.notInstalled,
    selenium := SelInitOutcome.initOk 7, nav := NavOutcome.navRaise,
    quit := QuitOutcome.quitOk, requestsFallback := none,
    foreignDuringFetch := [99] }

/-- Feed-network environment in which every candidate feed URL fails to
parse. -/
def env9 : String → FeedOutcome := fun _ => FeedOutcome.noParse

/-! ## Theorems -/

@[simp]
theorem string_mk_data (l : List Char) : (String.mk l).data = l := rfl

@[simp]
theorem string_mk_length (l : List Char) : (String.mk l).length = l.length := rfl

theorem string_length_eq_data (s : String) : s.length = s.data.length := rfl

theorem pyCapText_length (cap : Nat) (s : String) :
    (pyCapText cap s).length = if cap < s.length then cap + 3 else s.length := by
  have hd : s.length = s.data.length := rfl
  by_cases h : cap < s.length
  · have h3 : ("...".data).length = 3 := rfl
    simp [pyCapText, h, List.length_append, List.length_take, h3]
    omega
  · simp [pyCapText, h]

/-- Claim C5, as stated ("`len(text) <= maxContentLength`"), is false: the
browser extractor appends the three-character ellipsis marker after slicing
to the 15000-character cap (browser_fetch.py 388-389), so a 15001-character
pre-cap text yields a 15003-character output, strictly above the cap. -/
theorem C5_counterexample :
    (browser_text_cap longA).length = 15003 ∧
    15000 < (browser_text_cap longA).length := by
  have hlen : longA.length = 15001 := by
    rw [string_length_eq_data]
    show (List.replicate 15001 'a').length = 15001
    rw [List.length_replicate]
  have h := pyCapText_length 15000 longA
  rw [hlen] at h
  norm_num at h
  exact ⟨h, by rw [show browser_text_cap longA = pyCapText 15000 longA from rfl, h]; omega⟩

/-- Claim C5 amended: every capped output is at most `cap + 3` characters
(the cap plus the `"..."` marker), the output length equals `cap + 3`
exactly when the pre-cap text was strictly longer than the cap (and is the
unchanged text otherwise), and the marker is appended if and only if the
pre-cap text exceeded the cap — for the browser (15000), Jina (60000) and
feed-formatter (60000) caps. -/
theorem C5_amended (s : String) :
    (browser_text_cap s).length ≤ 15003 ∧
    (jina_text_cap s).length ≤ 60003 ∧
    (feed_text_cap s).length ≤ 60003 ∧
    ((browser_text_cap s).length = if 15000 < s.length then 15003 else s.length) ∧
    ((jina_text_cap s).length = if 60000 < s.length then 60003 else s.length) ∧
    ((feed_text_cap s).length = if 60000 < s.length then 60003 else s.length) ∧
    (browser_text_cap s
      = if 15000 < s.length then String.mk (s.data.take 15000 ++ "...".data) else s) ∧
    (jina_text_cap s
      = if 60000 < s.length then String.mk (s.data.take 60000 ++ "...".data) else s) ∧
    (feed_text_cap s
      = if 60000 < s.length then String.mk (s.data.take 60000 ++ "...".data) else s) := by
  refine ⟨?_, ?_, ?_, pyCapText_length 15000 s, pyCapText_length 60000 s,
    pyCapText_length 60000 s, rfl, rfl, rfl⟩
  · rw [show browser_text_cap s = pyCapText 15000 s from rfl, pyCapText_length]
    split <;> omega
  · rw [show jina_text_cap s = pyCapText 60000 s from rfl, pyCapText_length]
    split <;> omega
  · rw [show feed_text_cap s = pyCapText 60000 s from rfl, pyCapText_length]
    split <;> omega

set_option maxRecDepth 10000 in
set_option maxHeartbeats 1000000 in
/-- Claim C6, as stated, is false at `T0`: the classifier early-returns at the
first failing rule, so for a text failing both the indicator rule and the
paragraph rule it diagnoses only the indicator rule (a single logged reason,
and a bare boolean return), not the complete list of failing reasons. -/
theorem C6_counterexample :
    is_content_suitable_verdict T0 = (false, [RejectReason.tooManyIndicators]) ∧
    failing_rules T0 = [RejectReason.tooManyIndicators, RejectReason.tooFewParagraphs] ∧
    (is_content_suitable_verdict T0).2 ≠ failing_rules T0 := by
  refine ⟨by decide, by decide, by decide⟩

/-- Claim C6 amended: the classifier returns only a boolean (equal to the
conjunction of all rules), stopping at the first failing rule; its observable
diagnostics name at most that first failing rule — the head of the spec's
complete failing-reason list — never the full list. -/
theorem C6_amended (text : String) :
    (is_content_suitable_verdict text).2 = (failing_rules text).take 1 ∧
    (is_content_suitable_verdict text).1 = (failing_rules text).isEmpty ∧
    (is_content_suitable_verdict text).1 = is_content_suitable_for_llm text := by
  by_cases h1 : text.length < 200 <;>
    by_cases h2 : 5 ≤ indicator_count text <;>
      by_cases h3 : meaningful_paragraph_count text < 3 <;>
        by_cases h4 : repetitionReject text = true <;>
          simp [is_content_suitable_verdict, failing_rules, is_content_suitable_for_llm,
            h1, h2, h3, h4]

/-- Claim C10: each digest section fetches exactly the first seven declared
source URLs in declared order (all of them when seven or fewer are
declared), collects one content string per fetched URL in that order, and
sets `sources_limit_warning` exactly when more than seven sources were
declared. -/
theorem C10_theorem (fetchOutcome : String → Except Unit (Option String))
    (source_urls : List String) :
    (process_section_sources fetchOutcome source_urls).fetchedUrls = source_urls.take 7 ∧
    (process_section_sources fetchOutcome source_urls).sources_limit_warning
      = decide (7 < source_urls.length) ∧
    (process_section_sources fetchOutcome source_urls).sourcesContent
      = (source_urls.take 7).map (fun url =>
          match fetchOutcome url with
          | Except.ok _ => "Content from " ++ url
          | Except.error _ => "Error fetching content from " ++ url) := by
  by_cases h : 7 < source_urls.length
  · simp [process_section_sources, h]
  · have ht : source_urls.take 7 = source_urls := List.take_of_length_le (by omega)
    simp [process_section_sources, h, ht]

/-- Claim C3: the code contradicts its own caller.  tasks.py imports
`BrowserSession` and `process_html_content` from `.browser_fetch` and calls
`_fetch_with_browser(url, browser_session=...)`, but browser_fetch.py
defines `_fetch_with_browser` with the single parameter `url` and defines
neither imported name, so the import raises `ImportError` and the call would
raise `TypeError`. -/
theorem C3_signature_mismatch :
    ¬ ("browser_session" ∈ fetch_with_browser_params) ∧
    ¬ ("BrowserSession" ∈ browser_fetch_module_names) ∧
    ¬ ("process_html_content" ∈ browser_fetch_module_names) ∧
    "BrowserSession" ∈ tasks_imports_from_browser_fetch ∧
    "process_html_content" ∈ tasks_imports_from_browser_fetch ∧
    "browser_session" ∈ tasks_browser_call_kwargs ∧
    (∀ k ∈ tasks_browser_call_kwargs, k ∉ fetch_with_browser_params) := by
  decide

/-- Claim C4, as stated, is false: when navigation raises and `driver.quit()`
then fails or times out, the teardown fallback (browser_fetch.py 398-427,
439-454) kills every chrome/chromium process on the host — here both the
session's own process 7 and process 99, which this session did not launch —
so the teardown does not close exactly the browser process the session
launched. -/
theorem C4_counterexample :
    (fetch_with_browser_run env4bad).driverAcquired = true ∧
    (fetch_with_browser_run env4bad).result = Except.error () ∧
    (fetch_with_browser_run env4bad).teardownRan = true ∧
    (fetch_with_browser_run env4bad).killedInTeardown = [7, 99] ∧
    (fetch_with_browser_run env4bad).killedInTeardown ≠ [7] ∧
    99 ∈ (fetch_with_browser_run env4bad).killedInTeardown ∧
    99 ∈ env4bad.foreignDuringFetch := by
  refine ⟨rfl, rfl, rfl, rfl, by decide, by decide, by decide⟩

/-- Claim C4 amended: whenever a Selenium driver was acquired, the `finally`
teardown runs on every exit path (exceptions included) and the session's own
browser process is closed — never lingering; but only when `driver.quit()`
succeeds is the kill set exactly the session's own process, since on quit
failure or timeout the cleanup falls back to killing every chrome/chromium
process (and the startup phase likewise kills all pre-existing ones). -/
theorem C4_amended (env : BrowserEnv) (pid : Nat)
    (hsel : env.selenium = SelInitOutcome.initOk pid)
    (hinst : env.seleniumInstalled = true)
    (hpw : ∀ t, env.pw ≠ PwOutcome.navOk t)
    (hforeign : pid ∉ env.foreignDuringFetch) :
    (fetch_with_browser_run env).driverAcquired = true ∧
    (fetch_with_browser_run env).teardownRan = true ∧
    pid ∈ (fetch_with_browser_run env).killedInTeardown ∧
    pid ∉ (fetch_with_browser_run env).lingeringChrome ∧
    (env.quit = QuitOutcome.quitOk →
      (fetch_with_browser_run env).killedInTeardown = [pid]) := by
  obtain ⟨inst, pre, pw, sel, nav, quit, reqf, fore⟩ := env
  simp only at hsel hinst hpw hforeign
  subst hinst
  subst hsel
  cases pw with
  | navOk t => exact absurd rfl (hpw t)
  | notInstalled =>
    cases quit <;>
      simp [fetch_with_browser_run, hforeign]
  | navRaise =>
    cases quit <;>
      simp [fetch_with_browser_run, hforeign]

/-- Witness for the amended claim C4 at the concrete environment `env4ok`:
driver process 7 acquired, navigation raises, quit succeeds, unrelated
process 99 running. -/
theorem C4_amended_witness :
    (fetch_with_browser_run env4ok).driverAcquired = true ∧
    (fetch_with_browser_run env4ok).teardownRan = true ∧
    7 ∈ (fetch_with_browser_run env4ok).killedInTeardown ∧
    7 ∉ (fetch_with_browser_run env4ok).lingeringChrome ∧
    (env4ok.quit = QuitOutcome.quitOk →
      (fetch_with_browser_run env4ok).killedInTeardown = [7]) :=
  C4_amended env4ok 7 rfl rfl (fun t h => nomatch h) (by decide)

theorem httpLoop_ok_of_browser_ok (env : OrchEnv) (s : String)
    (hb : env.browser = BrowserOutcome.ok s) :
    ∀ rem attempt, ∃ v, (httpLoop env rem attempt).1 = Except.ok v := by
  intro rem
  induction rem with
  | zero => exact fun attempt => ⟨none, rfl⟩
  | succ n ih =>
    intro attempt
    cases hh : env.http attempt with
    | ok body =>
      simp only [httpLoop, hh, hb]
      split
      · exact ⟨some s, rfl⟩
      · split
        · exact ⟨some s, rfl⟩
        · exact ⟨some (env.processed body), rfl⟩
    | httpErr code =>
      simp only [httpLoop, hh, hb]
      split
      · exact ⟨some s, rfl⟩
      · split
        · exact ⟨some s, rfl⟩
        · exact ih (attempt + 1)
    | connErr =>
      simp only [httpLoop, hh, hb]
      split
      · exact ⟨some s, rfl⟩
      · exact ih (attempt + 1)
    | timeout =>
      simp only [httpLoop, hh, hb]
      split
      · exact ⟨some s, rfl⟩
      · exact ih (attempt + 1)
    | exc =>
      simp only [httpLoop, hh, hb]
      split
      · exact ⟨some s, rfl⟩
      · exact ih (attempt + 1)

theorem httpLoop_trace_cons (env : OrchEnv) (rem attempt : Nat) (h : rem ≠ 0) :
    ∃ rest, (httpLoop env rem attempt).2 = Step.http :: rest := by
  match rem with
  | 0 => exact absurd rfl h
  | n + 1 =>
    cases hh : env.http attempt with
    | ok body =>
      simp only [httpLoop, hh]
      split
      · cases env.browser
        · cases n
          · exact ⟨_, rfl⟩
          · exact ⟨_, rfl⟩
        · exact ⟨_, rfl⟩
      · split
        · cases env.browser
          · cases n
            · exact ⟨_, rfl⟩
            · exact ⟨_, rfl⟩
          · exact ⟨_, rfl⟩
        · exact ⟨_, rfl⟩
    | httpErr code =>
      simp only [httpLoop, hh]
      split
      · cases env.browser
        · exact ⟨_, rfl⟩
        · exact ⟨_, rfl⟩
      · cases n
        · cases env.browser
          · exact ⟨_, rfl⟩
          · exact ⟨_, rfl⟩
        · exact ⟨_, rfl⟩
    | connErr =>
      simp only [httpLoop, hh]
      cases n
      · cases env.browser
        · exact ⟨_, rfl⟩
        · exact ⟨_, rfl⟩
      · exact ⟨_, rfl⟩
    | timeout =>
      simp only [httpLoop, hh]
      cases n
      · cases env.browser
        · exact ⟨_, rfl⟩
        · exact ⟨_, rfl⟩
      · exact ⟨_, rfl⟩
    | exc =>
      simp only [httpLoop, hh]
      cases n
      · cases env.browser
        · exact ⟨_, rfl⟩
        · exact ⟨_, rfl⟩
      · exact ⟨_, rfl⟩

/-- Claim C2, as stated, is false at a concrete input: for the known
problematic site wsj.com (tasks.py 856-864) the orchestrator calls
`_fetch_with_browser` outside any `try`, so when the browser strategy raises
(for instance because Selenium is not installed, browser_fetch.py 20-22, or
all methods fail, line 243) the exception propagates out of
`fetch_url_content`.  The trace shows feed and Jina were attempted and
contained; the browser strategy was the last call. -/
theorem C2_counterexample :
    (fetch_url_content "https://wsj.com/markets" none true envBrowserRaise).1
      = Except.error () ∧
    (fetch_url_content "https://wsj.com/markets" none true envBrowserRaise).2
      = [Step.feed, Step.jina, Step.browser] := by
  exact ⟨rfl, rfl⟩

/-- Claim C2 amended: exceptions from the feed-discovery and reader-proxy
strategies are always contained inside `fetch_url_content` (the theorem
quantifies over every feed/Jina outcome, including a raising feed fetch);
the orchestrator can itself raise only when the URL has no `'//'` (domain
parsing) or when a `_fetch_with_browser` call raises on the problematic-site
or fallback paths — so whenever the URL parses and the browser strategy does
not raise, the call returns normally. -/
theorem C2_amended (url : String) (use_browser : Option Bool) (use_jina : Bool)
    (env : OrchEnv) (d s : String)
    (hd : pyDomain url = some d) (hb : env.browser = BrowserOutcome.ok s) :
    ∃ v, (fetch_url_content url use_browser use_jina env).1 = Except.ok v := by
  unfold fetch_url_content
  cases hr : rss_usable env with
  | some t => exact ⟨some t, rfl⟩
  | none =>
    rw [hd]
    dsimp only
    cases hj : (if use_jina && !(jinaBlocked d) then jina_usable env else none) with
    | some t => exact ⟨some t, rfl⟩
    | none =>
      dsimp only
      split
      · rw [hb]
        exact ⟨some s, rfl⟩
      · cases use_browser with
        | none => exact httpLoop_ok_of_browser_ok env s hb 2 0
        | some b =>
          cases b with
          | true =>
            rw [hb]
            exact ⟨some s, rfl⟩
          | false => exact httpLoop_ok_of_browser_ok env s hb 2 0

/-- Witness for the amended claim C2: a URL with a parsable domain and a
succeeding browser strategy returns normally. -/
theorem C2_amended_witness :
    ∃ v, (fetch_url_content "https://example.com/news" none true envBrowserOk).1
      = Except.ok v :=
  C2_amended "https://example.com/news" none true envBrowserOk "example.com"
    "rendered page text" (by decide) rfl

set_option maxRecDepth 10000 in
set_option maxHeartbeats 1000000 in
/-- Claim C1, as stated, is false at a concrete input: with
`use_browser=True` the orchestrator still tries RSS feed discovery first
(tasks.py 816-829, before the `use_browser is True` test at line 877); here
the feed yields suitable text, the call returns it, and the trace is
`[feed]` — the browser strategy is never attempted at all, contradicting
"skips feed discovery ... and attempts only the headless-browser
strategy". -/
theorem C1_counterexample :
    (fetch_url_content "https://example.com/news" (some true) true envRssGood).2
      = [Step.feed] ∧
    Step.browser ∉ (fetch_url_content "https://example.com/news" (some true) true envRssGood).2 := by
  have h : (fetch_url_content "https://example.com/news" (some true) true envRssGood).2
      = [Step.feed] := by decide
  refine ⟨h, ?_⟩
  rw [h]
  decide

/-- Claim C1 amended: `use_browser=True` does not skip the cheap strategies —
feed discovery always runs first and the reader proxy runs when enabled and
the domain is not blocklisted; only when neither yields suitable content
does the orchestrator go to the browser strategy, before any direct-HTTP
request (none appears in the trace when the browser call succeeds; on a
browser exception the code falls back to direct HTTP, tasks.py 877-883). -/
theorem C1_amended (url : String) (uj : Bool) (env : OrchEnv) (d s : String)
    (hd : pyDomain url = some d)
    (hprob : isProblematicSite d = false)
    (hrss : rss_usable env = none)
    (hjina : jina_usable env = none)
    (hb : env.browser = BrowserOutcome.ok s) :
    (fetch_url_content url (some true) uj env).1 = Except.ok (some s) ∧
    (fetch_url_content url (some true) uj env).2
      = (Step.feed :: (if uj && !(jinaBlocked d) then [Step.jina] else []))
          ++ [Step.browser] := by
  unfold fetch_url_content
  rw [hrss, hd]
  dsimp only
  rw [hjina, ite_self]
  try dsimp only
  rw [if_neg (by simp [hprob])]
  try dsimp only
  rw [hb]
  exact ⟨rfl, rfl⟩

/-- Witness for the amended claim C1: with no feed, no Jina content and a
succeeding browser, the forced-browser call returns the browser text and
the trace is feed, jina, browser — no direct-HTTP step. -/
theorem C1_amended_witness :
    (fetch_url_content "https://example.com/news" (some true) true envBrowserOk).1
      = Except.ok (some "rendered page text") ∧
    (fetch_url_content "https://example.com/news" (some true) true envBrowserOk).2
      = (Step.feed :: (if true && !(jinaBlocked "example.com") then [Step.jina] else []))
          ++ [Step.browser] :=
  C1_amended "https://example.com/news" true envBrowserOk "example.com" "rendered page text"
    (by decide) (by decide) rfl rfl rfl

/-- Claim C7, as stated, is false at a concrete input: for the known
problematic site wsj.com the orchestrator calls `_fetch_with_browser`
(tasks.py 856-864) even though the caller passed `use_browser=False` — the
problematic-site check precedes the `use_browser is False` test, and the
escalation paths of the retry loop ignore the flag as well. -/
theorem C7_counterexample :
    Step.browser ∈ (fetch_url_content "https://wsj.com/markets" (some false) true envBrowserOk).2 := by
  decide

/-- Claim C7 amended: with `use_browser=False` and a domain outside the
problematic-site list, the orchestrator never reaches the browser before
direct HTTP: the strategy trace is feed alone, feed then jina, or a
feed/jina prefix followed immediately by a direct-HTTP attempt — so any
browser call (which the counterexample shows can still happen) occurs only
after an HTTP attempt, as an escalation. -/
theorem C7_amended (url : String) (uj : Bool) (env : OrchEnv) (d : String)
    (hd : pyDomain url = some d) (hprob : isProblematicSite d = false) :
    (fetch_url_content url (some false) uj env).2 = [Step.feed] ∨
    (fetch_url_content url (some false) uj env).2 = [Step.feed, Step.jina] ∨
    ∃ T2, (fetch_url_content url (some false) uj env).2 = Step.feed :: Step.http :: T2 ∨
      (fetch_url_content url (some false) uj env).2
        = Step.feed :: Step.jina :: Step.http :: T2 := by
  unfold fetch_url_content
  cases hr : rss_usable env with
  | some t => exact Or.inl rfl
  | none =>
    rw [hd]
    dsimp only
    cases huj : (uj && !(jinaBlocked d)) with
    | true =>
      cases hju : jina_usable env with
      | some t => exact Or.inr (Or.inl rfl)
      | none =>
        rw [if_neg (show ¬(isProblematicSite d = true) by simp [hprob])]
        obtain ⟨rest, hr2⟩ := httpLoop_trace_cons env 2 0 (by decide)
        refine Or.inr (Or.inr ⟨rest, Or.inr ?_⟩)
        rw [hr2]
        try rfl
    | false =>
      rw [if_neg (show ¬(isProblematicSite d = true) by simp [hprob])]
      obtain ⟨rest, hr2⟩ := httpLoop_trace_cons env 2 0 (by decide)
      refine Or.inr (Or.inr ⟨rest, Or.inl ?_⟩)
      rw [hr2]
      try rfl

/-- Witness for the amended claim C7: a non-problematic domain with
`use_browser=False`; the HTTP attempt is rejected with 403 and the trace is
feed, jina, http, browser — the browser step strictly after the HTTP step. -/
theorem C7_amended_witness :
    (fetch_url_content "https://example.com/news" (some false) true envHttp403).2 = [Step.feed] ∨
    (fetch_url_content "https://example.com/news" (some false) true envHttp403).2
      = [Step.feed, Step.jina] ∨
    ∃ T2, (fetch_url_content "https://example.com/news" (some false) true envHttp403).2
        = Step.feed :: Step.http :: T2 ∨
      (fetch_url_content "https://example.com/news" (some false) true envHttp403).2
        = Step.feed :: Step.jina :: Step.http :: T2 :=
  C7_amended "https://example.com/news" true envHttp403 "example.com" (by decide) (by decide)

theorem common_paths_loop_spec (env : String → FeedOutcome) (links : List String)
    (base : String) :
    ∀ (cands : List String) (m : Nat), m < 3 →
      (∀ B C, B ++ C = (common_paths_loop env links base cands m).2 → C ≠ [] →
        missStreakAfter env m B < 3) ∧
      ((common_paths_loop env links base cands m).1 = none →
        (common_paths_loop env links base cands m).2 = eligible_urls links base cands ∨
        missStreakAfter env m (common_paths_loop env links base cands m).2 = 3) := by
  intro cands
  induction cands with
  | nil =>
    intro m hm
    constructor
    · intro B C hBC hC
      simp only [common_paths_loop] at hBC
      exact absurd (List.append_eq_nil.mp hBC).2 hC
    · intro _
      exact Or.inl rfl
  | cons p rest ih =>
    intro m hm
    by_cases hmem : (base ++ p) ∈ links
    · have hloop : common_paths_loop env links base (p :: rest) m
          = common_paths_loop env links base rest m := by
        simp only [common_paths_loop, if_pos hmem]
      have hpredF : ¬ ((decide ((base ++ p) ∉ links)
          && !(containsSub (base ++ p).data "/comments".data)) = true) := by
        simp [hmem]
      have helig : eligible_urls links base (p :: rest) = eligible_urls links base rest := by
        unfold eligible_urls
        rw [List.map_cons]
        exact List.filter_cons_of_neg hpredF
      rw [hloop, helig]
      exact ih m hm
    · by_cases hcom : containsSub (base ++ p).data "/comments".data = true
      · have hloop : common_paths_loop env links base (p :: rest) m
            = common_paths_loop env links base rest m := by
          simp only [common_paths_loop, if_neg hmem, if_pos hcom]
        have hpredF : ¬ ((decide ((base ++ p) ∉ links)
            && !(containsSub (base ++ p).data "/comments".data)) = true) := by
          rw [hcom]
          simp
        have helig : eligible_urls links base (p :: rest) = eligible_urls links base rest := by
          unfold eligible_urls
          rw [List.map_cons]
          exact List.filter_cons_of_neg hpredF
        rw [hloop, helig]
        exact ih m hm
      · have hcomF : containsSub (base ++ p).data "/comments".data = false := by
          revert hcom
          cases containsSub (base ++ p).data "/comments".data <;> simp
        have hpredT : (decide ((base ++ p) ∉ links)
            && !(containsSub (base ++ p).data "/comments".data)) = true := by
          rw [hcomF]
          simp [hmem]
        have helig : eligible_urls links base (p :: rest)
            = (base ++ p) :: eligible_urls links base rest := by
          unfold eligible_urls
          rw [List.map_cons]
          exact List.filter_cons_of_pos hpredT
        cases hout : env (base ++ p) with
        | parsedGood t =>
          have hloop : common_paths_loop env links base (p :: rest) m
              = (some t, [base ++ p]) := by
            simp only [common_paths_loop, if_neg hmem, if_neg hcom, hout]
          constructor
          · intro B C hBC hC
            rw [hloop] at hBC
            cases B with
            | nil => simpa [missStreakAfter] using hm
            | cons b B' =>
              injection hBC with h1 h2
              exact absurd (List.append_eq_nil.mp h2).2 hC
          · intro hnone
            rw [hloop] at hnone
            exact absurd hnone (by simp)
        | parsedShort =>
          have hloop : common_paths_loop env links base (p :: rest) m
              = ((common_paths_loop env links base rest 0).1,
                 (base ++ p) :: (common_paths_loop env links base rest 0).2) := by
            simp only [common_paths_loop, if_neg hmem, if_neg hcom, hout]
          obtain ⟨ihA, ihB⟩ := ih 0 (by omega)
          constructor
          · intro B C hBC hC
            rw [hloop] at hBC
            cases B with
            | nil => simpa [missStreakAfter] using hm
            | cons b B' =>
              injection hBC with h1 h2
              subst h1
              have hrec := ihA B' C h2 hC
              simpa [missStreakAfter, hout] using hrec
          · intro hnone
            rw [hloop] at hnone
            rw [hloop, helig]
            rcases ihB hnone with h | h
            · exact Or.inl (by rw [h])
            · exact Or.inr (by simpa [missStreakAfter, hout] using h)
        | noParse =>
          by_cases h3 : 3 ≤ m + 1
          · have hm2 : m = 2 := by omega
            have hloop : common_paths_loop env links base (p :: rest) m
                = (none, [base ++ p]) := by
              simp only [common_paths_loop, if_neg hmem, if_neg hcom, hout, if_pos h3]
            constructor
            · intro B C hBC hC
              rw [hloop] at hBC
              cases B with
              | nil => simpa [missStreakAfter] using hm
              | cons b B' =>
                injection hBC with h1 h2
                exact absurd (List.append_eq_nil.mp h2).2 hC
            · intro _
              rw [hloop]
              exact Or.inr (by simp [missStreakAfter, hout, hm2])
          · have hloop : common_paths_loop env links base (p :: rest) m
                = ((common_paths_loop env links base rest (m + 1)).1,
                   (base ++ p) :: (common_paths_loop env links base rest (m + 1)).2) := by
              simp only [common_paths_loop, if_neg hmem, if_neg hcom, hout, if_neg h3]
            obtain ⟨ihA, ihB⟩ := ih (m + 1) (by omega)
            constructor
            · intro B C hBC hC
              rw [hloop] at hBC
              cases B with
              | nil => simpa [missStreakAfter] using hm
              | cons b B' =>
                injection hBC with h1 h2
                subst h1
                have hrec := ihA B' C h2 hC
                simpa [missStreakAfter, hout] using hrec
            · intro hnone
              rw [hloop] at hnone
              rw [hloop, helig]
              rcases ihB hnone with h | h
              · exact Or.inl (by rw [h])
              · exact Or.inr (by simpa [missStreakAfter, hout] using h)

/-- Claim C9: in the common-path fallback of `fetch_rss_feed`, attempts are
governed by the consecutive-miss streak (`missStreakAfter`, which a parse
failure increments and any successful parse — even one whose formatted
result was too short to accept — resets to zero): at every point of the
attempt sequence where a further attempt follows, the streak is still below
3 (first conjunct: the loop stops as soon as an unbroken run of 3 parse
failures completes, and never stops mid-run before that); and when the loop
gives up without a result before exhausting the eligible candidate URLs,
the streak over its attempts equals exactly 3 (second conjunct: only an
unbroken run of 3 parse failures triggers the early abort). -/
theorem C9_theorem (env : String → FeedOutcome) (links : List String) (base : String) :
    (∀ B C, B ++ C = (try_common_paths env links base).2 → C ≠ [] →
      missStreakAfter env 0 B < 3) ∧
    ((try_common_paths env links base).1 = none →
      (try_common_paths env links base).2 = eligible_urls links base RSS_FEED_PATHS ∨
      missStreakAfter env 0 (try_common_paths env links base).2 = 3) :=
  common_paths_loop_spec env links base RSS_FEED_PATHS 0 (by omega)

/-- Witness for claim C9 at `env9` (every candidate fails to parse): the loop
aborts after exactly the first three common paths — a strict prefix of the
eligible candidates — with a final miss streak of 3. -/
theorem C9_theorem_witness :
    missStreakAfter env9 0 ((try_common_paths env9 [] "https://example.org").2) = 3 ∧
    missStreakAfter env9 0 [] < 3 :=
  ⟨((C9_theorem env9 [] "https://example.org").2 rfl).resolve_left (by decide),
   (C9_theorem env9 [] "https://example.org").1 []
     ((try_common_paths env9 [] "https://example.org").2) (by decide) (by decide)⟩

theorem sum_indicator_of_not_mem {α : Type} [BEq α] [LawfulBEq α] (x : α) (S : List α)
    (hx : x ∉ S) : (S.map (fun a => if x == a then 1 else 0)).sum = 0 := by
  induction S with
  | nil => rfl
  | cons a S' ih =>
    simp only [List.mem_cons, not_or] at hx
    simp [ih hx.2, beq_iff_eq, hx.1]

theorem sum_indicator_le_one {α : Type} [BEq α] [LawfulBEq α] (x : α) (S : List α)
    (hS : S.Nodup) : (S.map (fun a => if x == a then 1 else 0)).sum ≤ 1 := by
  induction S with
  | nil => exact Nat.zero_le 1
  | cons a S' ih =>
    obtain ⟨ha, hS'⟩ := List.nodup_cons.mp hS
    by_cases hxa : x = a
    · subst hxa
      simp [sum_indicator_of_not_mem x S' ha]
    · simp [beq_iff_eq, hxa]
      exact ih hS'

theorem sum_map_add_split {α : Type} (f g : α → Nat) (S : List α) :
    (S.map (fun a => f a + g a)).sum = (S.map f).sum + (S.map g).sum := by
  induction S with
  | nil => rfl
  | cons a S' ih => simp [ih]; omega

theorem sum_counts_le_length {α : Type} [BEq α] [LawfulBEq α] (l S : List α)
    (hS : S.Nodup) : (S.map (fun a => l.count a)).sum ≤ l.length := by
  induction l with
  | nil =>
    have hz : (S.map (fun a => ([] : List α).count a)).sum = 0 := by
      induction S with
      | nil => rfl
      | cons b S' ihS => simp [List.count_nil] at ihS ⊢
    omega
  | cons x l' ih =>
    have hstep : (S.map (fun a => (x :: l').count a)).sum
        = (S.map (fun a => l'.count a)).sum
          + (S.map (fun a => if x == a then 1 else 0)).sum := by
      rw [← sum_map_add_split]
      congr 1
      exact List.map_congr_left (fun a _ => List.count_cons a x l')
    rw [hstep]
    have h1 := sum_indicator_le_one x S hS
    have h2 := ih
    simp only [List.length_cons]
    omega

theorem length_mul_le_sum {α : Type} (S : List α) (f : α → Nat) (c : Nat)
    (h : ∀ a ∈ S, c ≤ f a) : S.length * c ≤ (S.map f).sum := by
  induction S with
  | nil => simp
  | cons a S' ih =>
    have ha := h a (List.mem_cons_self a S')
    have ih' := ih (fun b hb => h b (List.mem_cons_of_mem a hb))
    simp only [List.length_cons, List.map_cons, List.sum_cons]
    have : (S'.length + 1) * c = S'.length * c + c := by ring
    omega

theorem qualifying_mem_most_common (fw : List (List Char)) (total : Nat) (w : List Char)
    (hlen : fw.length ≤ total)
    (hcnt : 0 < fw.count w)
    (hfreq : total < 10 * fw.count w) :
    (w, fw.count w) ∈ most_common fw 20 := by
  have htrans : ∀ a b c : List Char,
      (fun a b => decide (fw.count b ≤ fw.count a)) a b →
      (fun a b => decide (fw.count b ≤ fw.count a)) b c →
      (fun a b => decide (fw.count b ≤ fw.count a)) a c := by
    intro a b c hab hbc
    exact decide_eq_true (Nat.le_trans (of_decide_eq_true hbc) (of_decide_eq_true hab))
  have htotal : ∀ a b : List Char,
      ((fun a b => decide (fw.count b ≤ fw.count a)) a b
        || (fun a b => decide (fw.count b ≤ fw.count a)) b a) = true := by
    intro a b
    rcases Nat.le_total (fw.count b) (fw.count a) with h | h <;> simp [h]
  have hpair := List.sorted_mergeSort htrans htotal (fw.dedup)
  have hperm : List.Perm
      ((fw.dedup).mergeSort (fun a b => decide (fw.count b ≤ fw.count a))) fw.dedup :=
    List.mergeSort_perm _ _
  have hw_sorted :
      w ∈ (fw.dedup).mergeSort (fun a b => decide (fw.count b ≤ fw.count a)) :=
    List.mem_mergeSort.mpr (List.mem_dedup.mpr (List.count_pos_iff.mp hcnt))
  have hnodup :
      ((fw.dedup).mergeSort (fun a b => decide (fw.count b ≤ fw.count a))).Nodup :=
    hperm.symm.nodup (List.nodup_dedup fw)
  by_cases hmemtake :
      w ∈ ((fw.dedup).mergeSort (fun a b => decide (fw.count b ≤ fw.count a))).take 20
  · exact List.mem_map_of_mem _ hmemtake
  · exfalso
    have hsplit :=
      List.take_append_drop 20
        ((fw.dedup).mergeSort (fun a b => decide (fw.count b ≤ fw.count a)))
    have hw_drop :
        w ∈ ((fw.dedup).mergeSort (fun a b => decide (fw.count b ≤ fw.count a))).drop 20 := by
      have hmem2 := hw_sorted
      rw [← hsplit] at hmem2
      rcases List.mem_append.mp hmem2 with h | h
      · exact absurd h hmemtake
      · exact h
    have hdropne :
        ((fw.dedup).mergeSort (fun a b => decide (fw.count b ≤ fw.count a))).drop 20 ≠ [] :=
      List.ne_nil_of_mem hw_drop
    have hlensorted :
        20 < ((fw.dedup).mergeSort (fun a b => decide (fw.count b ≤ fw.count a))).length := by
      by_contra hle
      push_neg at hle
      exact hdropne (List.drop_eq_nil_of_le hle)
    have hlen20 :
        (((fw.dedup).mergeSort (fun a b => decide (fw.count b ≤ fw.count a))).take 20).length
          = 20 := by
      rw [List.length_take]
      omega
    have hpw2 := hpair
    rw [← hsplit] at hpw2
    have hcross := (List.pairwise_append.mp hpw2).2.2
    have hge : ∀ x ∈ ((fw.dedup).mergeSort
        (fun a b => decide (fw.count b ≤ fw.count a))).take 20,
        fw.count w ≤ fw.count x := by
      intro x hx
      exact of_decide_eq_true (hcross x hx w hw_drop)
    have hndtake :
        (((fw.dedup).mergeSort (fun a b => decide (fw.count b ≤ fw.count a))).take 20).Nodup :=
      (List.take_sublist 20 _).nodup hnodup
    have hSnodup :
        (w :: ((fw.dedup).mergeSort
          (fun a b => decide (fw.count b ≤ fw.count a))).take 20).Nodup :=
      List.nodup_cons.mpr ⟨hmemtake, hndtake⟩
    have hub := sum_counts_le_length fw
      (w :: ((fw.dedup).mergeSort (fun a b => decide (fw.count b ≤ fw.count a))).take 20)
      hSnodup
    have hlb := length_mul_le_sum
      (w :: ((fw.dedup).mergeSort (fun a b => decide (fw.count b ≤ fw.count a))).take 20)
      (fun a => fw.count a) (fw.count w)
      (by
        intro a ha
        rcases List.mem_cons.mp ha with h | h
        · subst h; exact Nat.le_refl _
        · exact hge a h)
    have hlen21 :
        (w :: ((fw.dedup).mergeSort
          (fun a b => decide (fw.count b ≤ fw.count a))).take 20).length = 21 := by
      simp [hlen20]
    rw [hlen21] at hlb
    omega

set_option maxHeartbeats 800000 in
/-- Claim C8: for any text of more than 100 words, if some word outside the
stopword list and longer than 3 characters occurs more than 100 times with
frequency above 10 percent of the total word count, the classifier rejects
the text.  (Stated without assuming the earlier rules pass: a qualifying
repeated word forces rejection regardless, because any qualifying word
necessarily lands among the 20 most frequent filtered words — were it
outside, 21 distinct words would each occur at least `count` times, forcing
`21 * count ≤ total < 10 * count`.) -/
theorem C8_theorem (text : String) (w : List Char)
    (hwords : 100 < (pyWords text).length)
    (hstop : w ∉ common_words)
    (hlen4 : 3 < w.length)
    (hcount : 100 < (pyWords text).count w)
    (hfreq : (pyWords text).length < 10 * (pyWords text).count w) :
    is_content_suitable_for_llm text = false := by
  have hpred : (fun w' => decide (w' ∉ common_words ∧ 3 < w'.length)) w = true := by
    simp [hstop, hlen4]
  have hcf : (filtered_words (pyWords text)).count w = (pyWords text).count w := by
    unfold filtered_words
    exact List.count_filter hpred
  have hmem := qualifying_mem_most_common (filtered_words (pyWords text))
    ((pyWords text).length) w
    (List.length_filter_le _ _)
    (by rw [hcf]; omega)
    (by rw [hcf]; omega)
  have hrep : repetitionReject text = true := by
    unfold repetitionReject
    simp only [Bool.and_eq_true]
    refine ⟨decide_eq_true hwords, List.any_eq_true.mpr ?_⟩
    refine ⟨(w, (filtered_words (pyWords text)).count w), hmem, ?_⟩
    exact decide_eq_true ⟨by rw [hcf]; omega, by rw [hcf]; omega⟩
  unfold is_content_suitable_for_llm
  rw [hrep]
  simp

theorem pySplitWsAux_word (w : List Char) (hw : ∀ c ∈ w, pyIsSpace c = false) :
    ∀ (rest acc : List Char), pySplitWsAux (w ++ rest) acc = pySplitWsAux rest (w.reverse ++ acc) := by
  induction w with
  | nil => intro rest acc; rfl
  | cons c w' ih =>
    intro rest acc
    have hc : pyIsSpace c = false := hw c (List.mem_cons_self c w')
    have hw' : ∀ x ∈ w', pyIsSpace x = false := fun x hx => hw x (List.mem_cons_of_mem c hx)
    show pySplitWsAux (c :: (w' ++ rest)) acc = _
    simp only [pySplitWsAux, hc]
    rw [ih hw' rest (c :: acc)]
    simp [List.reverse_cons, List.append_assoc]

theorem joinSp_words (ws : List (List Char))
    (h : ∀ w ∈ ws, w ≠ [] ∧ ∀ c ∈ w, pyIsSpace c = false) :
    pySplitWs (joinSp ws) = ws := by
  induction ws with
  | nil => rfl
  | cons w tail ih =>
    cases tail with
    | nil =>
      obtain ⟨hne, hnospace⟩ := h w (List.mem_cons_self w [])
      show pySplitWsAux (joinSp [w]) [] = [w]
      rw [show joinSp [w] = w from rfl]
      rw [show (w : List Char) = w ++ [] from (List.append_nil w).symm]
      rw [pySplitWsAux_word w hnospace [] []]
      simp only [pySplitWsAux, List.append_nil]
      rw [if_neg (by simp [hne])]
      rw [List.reverse_reverse]
    | cons v vs =>
      obtain ⟨hne, hnospace⟩ := h w (List.mem_cons_self w (v :: vs))
      have htail : ∀ x ∈ v :: vs, x ≠ [] ∧ ∀ c ∈ x, pyIsSpace c = false :=
        fun x hx => h x (List.mem_cons_of_mem w hx)
      show pySplitWsAux (joinSp (w :: v :: vs)) [] = w :: v :: vs
      rw [show joinSp (w :: v :: vs) = w ++ ' ' :: joinSp (v :: vs) from rfl]
      rw [pySplitWsAux_word w hnospace (' ' :: joinSp (v :: vs)) []]
      simp only [pySplitWsAux, List.append_nil]
      rw [if_pos (show pyIsSpace ' ' = true from rfl)]
      rw [if_neg (by simp [hne])]
      rw [List.reverse_reverse]
      exact congrArg (w :: ·) (ih htail)

theorem pyLower_joinSp (ws : List (List Char)) (h : ∀ w ∈ ws, pyLower w = w) :
    pyLower (joinSp ws) = joinSp ws := by
  induction ws with
  | nil => rfl
  | cons w tail ih =>
    cases tail with
    | nil => exact h w (List.mem_cons_self w [])
    | cons v vs =>
      show pyLower (w ++ ' ' :: joinSp (v :: vs)) = w ++ ' ' :: joinSp (v :: vs)
      unfold pyLower at h ih ⊢
      rw [List.map_append, List.map_cons]
      rw [h w (List.mem_cons_self w (v :: vs))]
      rw [show Char.toLower ' ' = ' ' from rfl]
      rw [ih (fun x hx => h x (List.mem_cons_of_mem w hx))]

theorem pyWords_bigText : pyWords bigText = bigWords := by
  have hall_lower : ∀ w ∈ bigWords, pyLower w = w := by
    intro x hx
    rcases List.mem_append.mp hx with h | h
    · rw [List.eq_of_mem_replicate h]; decide
    · rw [List.eq_of_mem_replicate h]; decide
  have hall_shape : ∀ w ∈ bigWords, w ≠ [] ∧ ∀ c ∈ w, pyIsSpace c = false := by
    intro x hx
    rcases List.mem_append.mp hx with h | h
    · rw [List.eq_of_mem_replicate h]; decide
    · rw [List.eq_of_mem_replicate h]; decide
  show pySplitWs (pyLower bigText.data) = bigWords
  rw [show bigText.data = joinSp bigWords from rfl]
  rw [pyLower_joinSp bigWords hall_lower]
  exact joinSp_words bigWords hall_shape

theorem bigWords_length : bigWords.length = 6000 := by
  unfold bigWords
  rw [List.length_append, List.length_replicate, List.length_replicate]

theorem bigWords_count_subscribe : bigWords.count "subscribe".data = 5000 := by
  unfold bigWords
  rw [List.count_append, List.count_replicate_self, List.count_replicate]
  rw [show (("aaaa".data : List Char) == "subscribe".data) = false from by decide]
  simp

/-- Witness for claim C8 at the spec's scenario 4: the 6000-word text of 5000
occurrences of `subscribe` (with 1000 filler words) satisfies every
hypothesis — over 100 words, eligible word, count 5000 over 100, frequency
5000/6000 above 10 percent — and the classifier rejects it. -/
theorem C8_theorem_witness :
    (100 < (pyWords bigText).length ∧
     "subscribe".data ∉ common_words ∧
     3 < ("subscribe".data : List Char).length ∧
     100 < (pyWords bigText).count "subscribe".data ∧
     (pyWords bigText).length < 10 * (pyWords bigText).count "subscribe".data) ∧
    is_content_suitable_for_llm bigText = false := by
  have h1 : 100 < (pyWords bigText).length := by
    rw [pyWords_bigText, bigWords_length]; omega
  have h4 : 100 < (pyWords bigText).count "subscribe".data := by
    rw [pyWords_bigText, bigWords_count_subscribe]; omega
  have h5 : (pyWords bigText).length < 10 * (pyWords bigText).count "subscribe".data := by
    rw [pyWords_bigText, bigWords_length, bigWords_count_subscribe]; omega
  exact ⟨⟨h1, by decide, by decide, h4, h5⟩,
    C8_theorem bigText "subscribe".data h1 (by decide) (by decide) h4 h5⟩
